import Mathlib

/-!
Shallow embedding of the Redis-Lite in-memory key-value store
(src/RedisLite.h, src/RedisLite.cpp, and the earlier string-store variant
src/unnamed/part_000).

The store is owned by a single executor thread; callers enqueue commands and
the worker loop applies them one at a time in FIFO order.  We model the
executor's clock (std::chrono::steady_clock) as an integer timestamp passed to
each loop iteration; steady_clock is monotone, so iterations processed later
carry a timestamp that is at least as large.
-/

namespace RedisLite

/-- Entry stored for a key, mirroring struct ValueEntry in src/RedisLite.h:
a string value, a flag telling whether a TTL is set, and the absolute expiry
time.  In C++ the field expireAt is default-constructed to the clock epoch
when no TTL is given; we model that epoch as 0. -/
structure ValueEntry where
  value : String
  hasTTL : Bool
  expireAt : Int
deriving DecidableEq

/-- Tagged command variant, mirroring enum class CommandType plus the payload
fields of struct Command in src/RedisLite.h.  The promise field of a GET is
modelled by the list of fulfillments the executor produces while processing
the command (see workerStep). -/
inductive Command where
  | set (key value : String)
  | setTTL (key value : String) (ttlSeconds : Int)
  | get (key : String)
  | del (key : String)
deriving DecidableEq

/-- Key field of a command (struct Command has a single key field shared by
all four command types). -/
def Command.key : Command → String
  | .set k _ => k
  | .setTTL k _ _ => k
  | .get k => k
  | .del k => k

/-- Whether the command is a SET_TTL. -/
def Command.isSetTTL : Command → Bool
  | .setTTL _ _ _ => true
  | _ => false

/-- Whether the command is a GET (a Read carrying a result slot). -/
def Command.isGet : Command → Bool
  | .get _ => true
  | _ => false

/-- The store, std::unordered_map from key to entry, modelled as a finite-
support lookup function. -/
def Store : Type := String → Option ValueEntry

/-- The store a fresh RedisLite starts with: empty. -/
def emptyStore : Store := fun _ => none

/-- Point update of the store: store[k] = v for v = some entry, and
store.erase(k) for v = none. -/
def updateStore (s : Store) (k : String) (v : Option ValueEntry) : Store :=
  fun q => if q = k then v else s q

/-- The value the executor passes to cmd.result.set_value when a key is
absent or expired: the empty string (src/RedisLite.cpp lines 56, 64). -/
def notFoundMarker : String := ""

/-- One pass of the switch in RedisLite::workerLoop (src/RedisLite.cpp lines
33-74), processing a single dequeued command at executor clock reading now.
Returns the updated store together with the list of values passed to
cmd.result.set_value while processing the command (a fulfillment list, so
that delivering zero or two results is representable and can be ruled out by
proof rather than by the shape of the model).
  SET     : store[key] = { value, hasTTL = false, expireAt epoch }
  SET_TTL : store[key] = { value, hasTTL = true, expireAt = now + ttl }
  GET     : absent → fulfill "" ; expired (hasTTL ∧ now ≥ expireAt) → erase,
            fulfill "" ; otherwise fulfill the stored value
  DEL     : store.erase(key) -/
def workerStep (now : Int) (s : Store) (c : Command) : Store × List String :=
  match c with
  | .set k v => (updateStore s k (some ⟨v, false, 0⟩), [])
  | .setTTL k v ttl => (updateStore s k (some ⟨v, true, now + ttl⟩), [])
  | .get k =>
    match s k with
    | none => (s, [notFoundMarker])
    | some e =>
      if e.hasTTL = true ∧ e.expireAt ≤ now then
        (updateStore s k none, [notFoundMarker])
      else
        (s, [e.value])
  | .del k => (updateStore s k none, [])

/-- Sequential processing of a queue of commands, each paired with the
executor clock reading at which its loop iteration runs: the store threads
through, the fulfillments concatenate in order.  This is the effect of
successive iterations of RedisLite::workerLoop on the commands it dequeues
(FIFO: head first). -/
def runQueue (s : Store) : List (Int × Command) → Store × List String
  | [] => (s, [])
  | tc :: rest =>
    let p := workerStep tc.1 s tc.2
    let r := runQueue p.1 rest
    (r.1, p.2 ++ r.2)

/-- The store after applying every command of the queue in order (ignoring
result delivery). -/
def applyAll (s : Store) (q : List (Int × Command)) : Store :=
  q.foldl (fun st tc => (workerStep tc.1 st tc.2).1) s

/-- Number of GET commands in a timed queue. -/
def countGet (q : List (Int × Command)) : Nat :=
  q.countP (fun tc => tc.2.isGet)

/-- The while-loop of RedisLite::workerLoop (src/RedisLite.cpp lines 16-76)
with the stop flag fixed, given enough fuel to run that many iterations.
Each iteration first evaluates the exit test of lines 26-27: when
stop ∧ queue empty it breaks (returns the accumulated state: the Stopped
state), otherwise — the condition-variable wait of lines 22-24 having been
passed — it dequeues the front command and runs the dispatch switch.  With
stop = false and an empty queue the iteration parks on the condition
variable, which we model as none (no Stopped state reached); none is also
returned when the fuel runs out before the loop breaks. -/
def workerLoop (stop : Bool) : Nat → Store → List (Int × Command) →
    Option (Store × List String)
  | 0, _, _ => none
  | fuel + 1, s, q =>
    if stop ∧ q = [] then
      some (s, [])
    else
      match q with
      | [] => none
      | tc :: rest =>
        let p := workerStep tc.1 s tc.2
        match workerLoop stop fuel p.1 rest with
        | some r => some (r.1, p.2 ++ r.2)
        | none => none

/-- The producer side shared by RedisLite::set, RedisLite::setWithTTL,
RedisLite::get and RedisLite::del (src/RedisLite.cpp lines 78-134): each
builds a command, locks queueMutex, pushes the command onto commandQueue and
notifies the condition variable.  None of the four methods reads the stop
flag and none has an error or early-return path, so the model takes the stop
flag as an argument and — exactly like the source — never consults it. -/
def enqueue (stop : Bool) (q : List Command) (c : Command) : List Command :=
  q ++ [c]

/-! The earlier string-store variant, src/unnamed/part_000.  Its store maps
keys directly to value strings and its dispatch has no SET_TTL branch. -/

/-- The store of the part_000 variant: key to value string. -/
def StoreV0 : Type := String → Option String

/-- The empty part_000 store. -/
def emptyStoreV0 : StoreV0 := fun _ => none

/-- Point update of the part_000 store. -/
def updateStoreV0 (s : StoreV0) (k : String) (v : Option String) : StoreV0 :=
  fun q => if q = k then v else s q

/-- The dispatch chain of the part_000 workerLoop (src/unnamed/part_000
lines 47-62): if SET then store[key] = value; else if GET then fulfill the
stored value when found, "" otherwise; else if DEL then erase.  A SET_TTL
command matches no branch of the if/else chain and is a no-op. -/
def workerStepV0 (s : StoreV0) (c : Command) : StoreV0 × List String :=
  match c with
  | .set k v => (updateStoreV0 s k (some v), [])
  | .setTTL _ _ _ => (s, [])
  | .get k =>
    match s k with
    | none => (s, [notFoundMarker])
    | some v => (s, [v])
  | .del k => (updateStoreV0 s k none, [])

/-- Sequential processing of a command list by the part_000 dispatch, as it
would run if each loop pass dequeued the front command (the layout of the
loop body: dispatch on the local cmd after the critical section). -/
def runQueueV0 (s : StoreV0) : List Command → StoreV0 × List String
  | [] => (s, [])
  | c :: rest =>
    let p := workerStepV0 s c
    let r := runQueueV0 p.1 rest
    (r.1, p.2 ++ r.2)

/-- One pass of the part_000 while-loop as actually written, in the running
state (stop = false) with a non-empty queue: the condition-variable wait
returns, the critical section tests stop, finds it false, and ends without
ever reading commandQueue.front() or calling pop().  The dispatch below the
critical section therefore runs on the default-constructed local variable
cmd — its key and value fields are empty strings and its ttlSeconds is 0,
while its type field is left uninitialized, so the pass takes that
indeterminate command as the parameter junk.  The queue is returned
unchanged. -/
def loopPassV0 (junk : Command) (s : StoreV0) (q : List Command) :
    StoreV0 × List Command × List String :=
  ((workerStepV0 s junk).1, q, (workerStepV0 s junk).2)

/-- n passes of the part_000 while-loop as written, in the running state. -/
def loopPassesV0 (junk : Command) : Nat → StoreV0 → List Command →
    StoreV0 × List Command × List String
  | 0, s, q => (s, q, [])
  | n + 1, s, q =>
    let p := loopPassV0 junk s q
    let r := loopPassesV0 junk n p.1 p.2.1
    (r.1, r.2.1, p.2.2 ++ r.2.2)

/-- The stop branch of the part_000 workerLoop (src/unnamed/part_000 lines
33-42): when stop is observed, every command still in the queue is popped
without being applied to the store; a pending GET has its result slot
fulfilled with "" and every other command is silently discarded; then the
loop breaks.  Returns the fulfillments produced while tearing the queue
down (the store is untouched). -/
def stopDrainV0 : List Command → List String
  | [] => []
  | c :: rest =>
    match c with
    | .get _ => notFoundMarker :: stopDrainV0 rest
    | _ => stopDrainV0 rest

/-- Value-level abstraction between a TTL store and a part_000 store: same
keys present, same value string per key. -/
def absMatch (s : Store) (s0 : StoreV0) : Prop :=
  ∀ k, s0 k = Option.map ValueEntry.value (s k)

/-- No entry of the store carries a TTL (the invariant maintained by
SET/GET/DEL-only workloads). -/
def ttlFree (s : Store) : Prop :=
  ∀ k e, s k = some e → e.hasTTL = false

/-! Helper lemmas. -/

theorem updateStore_self (s : Store) (k : String) (v : Option ValueEntry) :
    updateStore s k v k = v := by
  simp [updateStore]

theorem updateStore_other (s : Store) (k k' : String) (v : Option ValueEntry)
    (h : k' ≠ k) : updateStore s k v k' = s k' := by
  simp [updateStore, h]

/-- Dispatch touches no key other than that of the command itself. -/
theorem workerStep_frame (t : Int) (s : Store) (c : Command) (k' : String)
    (h : k' ≠ c.key) : (workerStep t s c).1 k' = s k' := by
  cases c with
  | set k v => exact updateStore_other s k k' _ h
  | setTTL k v ttl => exact updateStore_other s k k' _ h
  | get k =>
    simp only [workerStep]
    cases hk : s k with
    | none => rfl
    | some e =>
      by_cases hex : e.hasTTL = true ∧ e.expireAt ≤ t
      · simp only [if_pos hex]
        exact updateStore_other s k k' none h
      · simp only [if_neg hex]
  | del k => exact updateStore_other s k k' none h

/-- Processing a GET command produces exactly one fulfillment; processing
any other command produces none. -/
theorem workerStep_outs_length (t : Int) (s : Store) (c : Command) :
    ((workerStep t s c).2).length = if c.isGet then 1 else 0 := by
  cases c with
  | set k v => rfl
  | setTTL k v ttl => rfl
  | get k =>
    simp only [workerStep, Command.isGet, if_pos]
    cases hk : s k with
    | none => rfl
    | some e =>
      by_cases hex : e.hasTTL = true ∧ e.expireAt ≤ t
      · simp [if_pos hex]
      · simp [if_neg hex]
  | del k => rfl

/-- A GET of a freshly SET key returns the written value, at any clock
reading. -/
theorem workerStep_get_after_set (t t' : Int) (s : Store) (k v : String) :
    workerStep t' (workerStep t s (Command.set k v)).1 (Command.get k)
      = ((workerStep t s (Command.set k v)).1, [v]) := by
  simp [workerStep, updateStore_self]

/-- The store produced by sequential processing is the fold of the dispatch
over the queue. -/
theorem runQueue_fst (s : Store) (q : List (Int × Command)) :
    (runQueue s q).1 = applyAll s q := by
  induction q generalizing s with
  | nil => rfl
  | cons tc rest ih => simp [runQueue, applyAll, List.foldl_cons, ih]

/-- Sequential processing fulfills one result per GET in the queue. -/
theorem runQueue_snd_length (s : Store) (q : List (Int × Command)) :
    ((runQueue s q).2).length = countGet q := by
  induction q generalizing s with
  | nil => rfl
  | cons tc rest ih =>
    simp [runQueue, countGet, List.countP_cons, workerStep_outs_length, ih]
    cases h : tc.2.isGet <;> simp [h, countGet, Nat.add_comm]

/-- Sequential processing splits over queue concatenation. -/
theorem runQueue_append (s : Store) (q1 q2 : List (Int × Command)) :
    runQueue s (q1 ++ q2)
      = ((runQueue (runQueue s q1).1 q2).1,
         (runQueue s q1).2 ++ (runQueue (runQueue s q1).1 q2).2) := by
  induction q1 generalizing s with
  | nil => simp [runQueue]
  | cons tc rest ih => simp [runQueue, ih, List.append_assoc]

/-- A run whose commands all avoid key k leaves the entry of k unchanged. -/
theorem runQueue_frame (s : Store) (q : List (Int × Command)) (k : String)
    (h : ∀ tc ∈ q, (Prod.snd tc).key ≠ k) : (runQueue s q).1 k = s k := by
  induction q generalizing s with
  | nil => rfl
  | cons tc rest ih =>
    simp only [runQueue]
    rw [ih _ (fun x hx => h x (List.mem_cons_of_mem _ hx))]
    exact workerStep_frame tc.1 s tc.2 k
      (fun hk => h tc (List.mem_cons_self _ _) hk.symm)

/-- With the stop flag set, the worker loop with fuel one more than the
queue length drains the whole queue and breaks. -/
theorem workerLoop_drains (q : List (Int × Command)) (s : Store) :
    workerLoop true (q.length + 1) s q = some (runQueue s q) := by
  induction q generalizing s with
  | nil => rfl
  | cons tc rest ih =>
    have h1 : workerLoop true (rest.length + 1 + 1) s (tc :: rest)
        = match workerLoop true (rest.length + 1)
            (workerStep tc.1 s tc.2).1 rest with
          | some r => some (r.1, (workerStep tc.1 s tc.2).2 ++ r.2)
          | none => none := rfl
    rw [List.length_cons, h1, ih]
    rfl

/-- The part_000 dispatch touches no key other than that of the command itself. -/
theorem workerStepV0_frame (s : StoreV0) (c : Command) (k' : String)
    (h : k' ≠ c.key) : (workerStepV0 s c).1 k' = s k' := by
  cases c with
  | set k v =>
    have h' : k' ≠ k := h
    simp [workerStepV0, updateStoreV0, h']
  | setTTL k v ttl => rfl
  | get k =>
    simp only [workerStepV0]
    cases s k <;> rfl
  | del k =>
    have h' : k' ≠ k := h
    simp [workerStepV0, updateStoreV0, h']

/-- On a SET/GET/DEL command, the part_000 dispatch and the TTL-aware
dispatch produce identical fulfillments and value-matching stores, and the
TTL-aware store stays TTL-free. -/
theorem workerStep_v0_agrees (t : Int) (s : Store) (s0 : StoreV0)
    (c : Command) (hc : c.isSetTTL = false) (hf : ttlFree s)
    (hm : absMatch s s0) :
    (workerStepV0 s0 c).2 = (workerStep t s c).2
    ∧ absMatch (workerStep t s c).1 (workerStepV0 s0 c).1
    ∧ ttlFree (workerStep t s c).1 := by
  cases c with
  | set k v =>
    refine ⟨rfl, ?_, ?_⟩
    · intro k'
      by_cases hk : k' = k
      · subst hk
        simp [workerStep, workerStepV0, updateStore_self, updateStoreV0]
      · simp only [workerStep, workerStepV0]
        rw [updateStore_other s k k' _ hk]
        simp only [updateStoreV0, if_neg hk]
        exact hm k'
    · intro k' e hk
      by_cases hkk : k' = k
      · subst hkk
        simp only [workerStep, updateStore_self] at hk
        cases hk
        rfl
      · simp only [workerStep] at hk
        rw [updateStore_other s k k' _ hkk] at hk
        exact hf k' e hk
  | setTTL k v ttl => cases hc
  | get k =>
    have hm0 := hm k
    cases hk : s k with
    | none =>
      rw [hk] at hm0
      simp only [workerStep, workerStepV0, hk, hm0, Option.map_none]
      exact ⟨rfl, hm, hf⟩
    | some e =>
      have hTTL : e.hasTTL = false := hf k e hk
      rw [hk] at hm0
      simp only [workerStep, workerStepV0, hk, hm0, Option.map_some]
      rw [if_neg (by simp [hTTL])]
      exact ⟨rfl, hm, hf⟩
  | del k =>
    refine ⟨rfl, ?_, ?_⟩
    · intro k'
      by_cases hk : k' = k
      · subst hk
        simp [workerStep, workerStepV0, updateStore_self, updateStoreV0]
      · simp only [workerStep, workerStepV0]
        rw [updateStore_other s k k' _ hk]
        simp only [updateStoreV0, if_neg hk]
        exact hm k'
    · intro k' e hk
      by_cases hkk : k' = k
      · subst hkk
        simp only [workerStep, updateStore_self] at hk
        cases hk
      · simp only [workerStep] at hk
        rw [updateStore_other s k k' _ hkk] at hk
        exact hf k' e hk

/-- Run-level agreement of the two dispatch loops on SET/GET/DEL queues. -/
theorem runQueue_v0_agrees (q : List (Int × Command)) (s : Store)
    (s0 : StoreV0) (hq : ∀ tc ∈ q, (Prod.snd tc).isSetTTL = false)
    (hf : ttlFree s) (hm : absMatch s s0) :
    (runQueueV0 s0 (q.map Prod.snd)).2 = (runQueue s q).2
    ∧ absMatch (runQueue s q).1 (runQueueV0 s0 (q.map Prod.snd)).1 := by
  induction q generalizing s s0 with
  | nil => exact ⟨rfl, hm⟩
  | cons tc rest ih =>
    have hstep := workerStep_v0_agrees tc.1 s s0 tc.2
      (hq tc (List.mem_cons_self _ _)) hf hm
    have hrest := ih (workerStep tc.1 s tc.2).1 (workerStepV0 s0 tc.2).1
      (fun x hx => hq x (List.mem_cons_of_mem _ hx)) hstep.2.2 hstep.2.1
    simp only [List.map_cons, runQueue, runQueueV0]
    exact ⟨by rw [hstep.1, hrest.1], hrest.2⟩

/-- The part_000 loop as written never changes the queue in the running
state: after any number of passes the queue is what it was. -/
theorem loopPassesV0_queue (junk : Command) (n : Nat) (s : StoreV0)
    (q : List Command) : (loopPassesV0 junk n s q).2.1 = q := by
  induction n generalizing s q with
  | zero => rfl
  | succ n ih => simpa [loopPassesV0, loopPassV0] using ih _ q

/-- The part_000 loop as written only ever writes the key of the
default-constructed command: every other key keeps its store entry. -/
theorem loopPassesV0_store_frame (junk : Command) (n : Nat) (s : StoreV0)
    (q : List Command) (k' : String) (h : k' ≠ junk.key) :
    (loopPassesV0 junk n s q).1 k' = s k' := by
  induction n generalizing s q with
  | zero => rfl
  | succ n ih =>
    simp only [loopPassesV0, loopPassV0]
    rw [ih _ _]
    exact workerStepV0_frame s junk k' h

end RedisLite

section Sanity

open RedisLite

example : (workerStep 0 emptyStore (Command.set "k" "v")).1 "k"
    = some ⟨"v", false, 0⟩ := by decide

example : (workerStep 7 emptyStore (Command.get "k")).2 = [notFoundMarker] := by
  decide

example :
    (workerStep 5 (workerStep 0 emptyStore (Command.setTTL "k" "v" 3)).1
      (Command.get "k")).2 = [""] := by decide

example :
    (workerStep 2 (workerStep 0 emptyStore (Command.setTTL "k" "v" 3)).1
      (Command.get "k")).2 = ["v"] := by decide

example :
    (runQueue emptyStore [(0, Command.set "k" "a"), (1, Command.set "k" "b"),
      (2, Command.get "k")]).2 = ["b"] := by decide

end Sanity

namespace RedisLite

/-- Claim C1: the read contract of GET.  If the key is absent the result is
the not-found marker; if present and unexpired (no TTL, or now < expiry) the
result is the stored value and the store is unchanged; if present with a TTL
and now ≥ expiry the entry is erased (lazy eviction) and the result is the
not-found marker. -/
theorem get_read_contract (t : Int) (s : Store) (k : String) :
    (s k = none → workerStep t s (Command.get k) = (s, [notFoundMarker]))
    ∧ (∀ e, s k = some e → (e.hasTTL = false ∨ t < e.expireAt) →
        workerStep t s (Command.get k) = (s, [e.value]))
    ∧ (∀ e, s k = some e → e.hasTTL = true → e.expireAt ≤ t →
        workerStep t s (Command.get k)
          = (updateStore s k none, [notFoundMarker])) := by
  refine ⟨fun h => by simp [workerStep, h], ?_, ?_⟩
  · intro e he hu
    simp only [workerStep, he]
    rw [if_neg ?_]
    rintro ⟨h1, h2⟩
    rcases hu with hu | hu
    · rw [hu] at h1
      cases h1
    · exact absurd h2 (not_le.mpr hu)
  · intro e he h1 h2
    simp [workerStep, he, h1, h2]

/-- Claim C1 witness: the three branches of the read contract at concrete
stores — absent key, unexpired TTL entry, expired TTL entry. -/
theorem get_read_contract_witness :
    (emptyStore "a" = none
      ∧ workerStep 0 emptyStore (Command.get "a")
          = (emptyStore, [notFoundMarker]))
    ∧ ((updateStore emptyStore "a" (some ⟨"v", true, 9⟩)) "a"
          = some ⟨"v", true, 9⟩
      ∧ workerStep 5 (updateStore emptyStore "a" (some ⟨"v", true, 9⟩))
            (Command.get "a")
          = (updateStore emptyStore "a" (some ⟨"v", true, 9⟩), ["v"]))
    ∧ ((updateStore emptyStore "a" (some ⟨"v", true, 3⟩)) "a"
          = some ⟨"v", true, 3⟩
      ∧ workerStep 5 (updateStore emptyStore "a" (some ⟨"v", true, 3⟩))
            (Command.get "a")
          = (updateStore (updateStore emptyStore "a" (some ⟨"v", true, 3⟩))
              "a" none, [notFoundMarker])) :=
  ⟨⟨rfl, (get_read_contract 0 emptyStore "a").1 rfl⟩,
   ⟨by decide,
    (get_read_contract 5 _ "a").2.1 ⟨"v", true, 9⟩ (by decide)
      (Or.inr (by decide))⟩,
   ⟨by decide,
    (get_read_contract 5 _ "a").2.2 ⟨"v", true, 3⟩ (by decide) rfl
      (by decide)⟩⟩

/-- Claim C2: with the stop flag raised, the worker loop still applies every
already-enqueued command before breaking out (reaching Stopped): given fuel
one past the queue length it terminates with the fully processed state, the
final store is the fold of the dispatch over the whole queue, and one result
is delivered per enqueued GET — no Read caller is left blocked. -/
theorem shutdown_drains_all_commands (s : Store) (q : List (Int × Command)) :
    workerLoop true (q.length + 1) s q = some (runQueue s q)
    ∧ (runQueue s q).1 = applyAll s q
    ∧ ((runQueue s q).2).length = countGet q :=
  ⟨workerLoop_drains q s, runQueue_fst s q, runQueue_snd_length s q⟩

/-- Claim C3: every processed Read fulfills its result slot exactly once —
the fulfillment list of a GET is a singleton, holding either the not-found
marker or the stored value — and over any processed queue (the shutdown
drain included, which runs the same loop) the number of fulfillments equals
the number of enqueued GETs. -/
theorem get_fulfilled_exactly_once (t : Int) (s : Store) (k : String) :
    (∃ r, (workerStep t s (Command.get k)).2 = [r]
      ∧ (r = notFoundMarker ∨ ∃ e, s k = some e ∧ r = e.value))
    ∧ ∀ q : List (Int × Command),
        ((runQueue s q).2).length = countGet q := by
  refine ⟨?_, fun q => runQueue_snd_length s q⟩
  cases hk : s k with
  | none => exact ⟨notFoundMarker, by simp [workerStep, hk], Or.inl rfl⟩
  | some e =>
    by_cases hex : e.hasTTL = true ∧ e.expireAt ≤ t
    · exact ⟨notFoundMarker, by simp [workerStep, hk, if_pos hex], Or.inl rfl⟩
    · exact ⟨e.value, by simp [workerStep, hk, if_neg hex],
        Or.inr ⟨e, hk ▸ rfl, rfl⟩⟩

/-- Claim C7: SET inserts or overwrites the entry and stores it without a
TTL, so a later GET of the key — at any clock reading, however large —
returns the written value. -/
theorem set_clears_ttl (s : Store) (k v : String) (t t' : Int) :
    (workerStep t s (Command.set k v)).1 k = some ⟨v, false, 0⟩
    ∧ workerStep t' (workerStep t s (Command.set k v)).1 (Command.get k)
        = ((workerStep t s (Command.set k v)).1, [v]) :=
  ⟨updateStore_self s k _, workerStep_get_after_set t t' s k v⟩

/-- Claim C9: frame effect — a command leaves the entry of every key other
than its own untouched, on all four command types. -/
theorem command_frame_effect (t : Int) (s : Store) (c : Command)
    (k' : String) (h : k' ≠ c.key) : (workerStep t s c).1 k' = s k' :=
  workerStep_frame t s c k' h

/-- Claim C9 witness: a SET of key "b" leaves key "a" absent. -/
theorem command_frame_effect_witness :
    "a" ≠ (Command.set "b" "v").key
    ∧ (workerStep 0 emptyStore (Command.set "b" "v")).1 "a"
        = emptyStore "a" :=
  ⟨by decide, command_frame_effect 0 emptyStore (Command.set "b" "v") "a"
    (by decide)⟩

/-- Claim C4 counterexample: set can store the empty string, and a
successful GET of that stored — present and unexpired — value returns
exactly the not-found marker, so the marker is not distinguishable from
every storable value. -/
theorem empty_value_get_equals_marker :
    (workerStep 0 emptyStore (Command.set "k" "")).1 "k"
        = some ⟨"", false, 0⟩
    ∧ (workerStep 1 (workerStep 0 emptyStore (Command.set "k" "")).1
        (Command.get "k")).2 = [notFoundMarker] :=
  ⟨by decide, by decide⟩

/-- Claim C4 amended: GET on an absent key returns the not-found marker as
an ordinary value, and the marker (the empty string) is distinguishable
from every nonempty stored value: a GET of a freshly stored v ≠ "" returns
v, which differs from the marker.  (A stored empty string is
indistinguishable from not-found.) -/
theorem notfound_marker_amended (s : Store) (k v : String) (t t' : Int) :
    (s k = none → workerStep t s (Command.get k) = (s, [notFoundMarker]))
    ∧ (∀ e, s k = some e → e.hasTTL = true → e.expireAt ≤ t →
        (workerStep t s (Command.get k)).2 = [notFoundMarker])
    ∧ (v ≠ "" →
        (workerStep t' (workerStep t s (Command.set k v)).1
            (Command.get k)).2 = [v] ∧ v ≠ notFoundMarker) := by
  refine ⟨fun h => by simp [workerStep, h], ?_, fun hv => ⟨?_, hv⟩⟩
  · intro e he h1 h2
    simp [workerStep, he, h1, h2]
  · rw [workerStep_get_after_set]

/-- Claim C4 amended witness: concrete absent key, concrete expired entry
and concrete nonempty value. -/
theorem notfound_marker_amended_witness :
    (emptyStore "x" = none
      ∧ workerStep 0 emptyStore (Command.get "x")
          = (emptyStore, [notFoundMarker]))
    ∧ ((updateStore emptyStore "x" (some ⟨"w", true, 3⟩)) "x"
          = some ⟨"w", true, 3⟩
      ∧ (workerStep 5 (updateStore emptyStore "x" (some ⟨"w", true, 3⟩))
            (Command.get "x")).2 = [notFoundMarker])
    ∧ ("hello" ≠ ""
      ∧ (workerStep 1 (workerStep 0 emptyStore (Command.set "x" "hello")).1
            (Command.get "x")).2 = ["hello"]
      ∧ "hello" ≠ notFoundMarker) :=
  ⟨⟨rfl, (notfound_marker_amended emptyStore "x" "hello" 0 1).1 rfl⟩,
   ⟨by decide,
    (notfound_marker_amended
        (updateStore emptyStore "x" (some ⟨"w", true, 3⟩)) "x" "hello" 5 1).2.1
      ⟨"w", true, 3⟩ (by decide) rfl (by decide)⟩,
   by decide,
   (notfound_marker_amended emptyStore "x" "hello" 0 1).2.2 (by decide)⟩

/-- Claim C5: FIFO order — with a SET of k to "a" enqueued before a SET of
k to "b", and no other command addressing k in between or after, a
subsequently enqueued GET of k is fulfilled with "b": the later write wins
deterministically, whatever else the queue holds before the first SET. -/
theorem fifo_later_write_wins (s : Store) (k a b : String)
    (pre mid post : List (Int × Command)) (t1 t2 t3 : Int)
    (hmid : ∀ tc ∈ mid, (Prod.snd tc).key ≠ k)
    (hpost : ∀ tc ∈ post, (Prod.snd tc).key ≠ k) :
    (runQueue s (pre ++ (t1, Command.set k a) :: mid
        ++ (t2, Command.set k b) :: post ++ [(t3, Command.get k)])).2
      = (runQueue s (pre ++ (t1, Command.set k a) :: mid
          ++ (t2, Command.set k b) :: post)).2 ++ [b] := by
  have hkey : (runQueue s (pre ++ (t1, Command.set k a) :: mid
      ++ (t2, Command.set k b) :: post)).1 k = some ⟨b, false, 0⟩ := by
    have h2 : pre ++ (t1, Command.set k a) :: mid
        ++ (t2, Command.set k b) :: post
        = (pre ++ (t1, Command.set k a) :: mid)
          ++ ((t2, Command.set k b) :: post) := by
      simp
    rw [h2, runQueue_append]
    show (runQueue _ ((t2, Command.set k b) :: post)).1 k = _
    simp only [runQueue]
    rw [runQueue_frame _ post k hpost]
    exact updateStore_self _ k _
  have hsplit : pre ++ (t1, Command.set k a) :: mid
      ++ (t2, Command.set k b) :: post ++ [(t3, Command.get k)]
      = (pre ++ (t1, Command.set k a) :: mid
          ++ (t2, Command.set k b) :: post) ++ [(t3, Command.get k)] := by
    simp
  rw [hsplit, runQueue_append]
  show _ ++ (runQueue _ [(t3, Command.get k)]).2 = _
  simp only [runQueue, workerStep]
  rw [hkey]
  simp

/-- Claim C5 witness: a concrete queue with unrelated traffic around the
two writes still answers the trailing GET with the later value. -/
theorem fifo_later_write_wins_witness :
    (∀ tc ∈ [((1 : Int), Command.del "j")], (Prod.snd tc).key ≠ "k")
    ∧ (∀ tc ∈ [((3 : Int), Command.set "j" "y")], (Prod.snd tc).key ≠ "k")
    ∧ (runQueue emptyStore ([((0 : Int), Command.set "j" "x")]
        ++ (1, Command.set "k" "a") :: [((1 : Int), Command.del "j")]
        ++ (2, Command.set "k" "b") :: [((3 : Int), Command.set "j" "y")]
        ++ [((4 : Int), Command.get "k")])).2
      = (runQueue emptyStore ([((0 : Int), Command.set "j" "x")]
          ++ (1, Command.set "k" "a") :: [((1 : Int), Command.del "j")]
          ++ (2, Command.set "k" "b")
            :: [((3 : Int), Command.set "j" "y")])).2 ++ ["b"] :=
  ⟨by decide, by decide,
   fifo_later_write_wins emptyStore "k" "a" "b"
     [((0 : Int), Command.set "j" "x")] [((1 : Int), Command.del "j")]
     [((3 : Int), Command.set "j" "y")] 1 2 4 (by decide) (by decide)⟩

/-- Claim C6: SET_TTL inserts or overwrites the entry with
expiry = now + ttlSeconds, and for every ttlSeconds ≤ 0 the entry is
already expired, so a GET processed at the write's clock reading or any
later one (steady_clock is monotone) evicts the entry and returns the
not-found marker. -/
theorem setWithTTL_nonpos_expires_immediately (s : Store) (k v : String)
    (ttl t t' : Int) :
    (workerStep t s (Command.setTTL k v ttl)).1 k = some ⟨v, true, t + ttl⟩
    ∧ (ttl ≤ 0 → t ≤ t' →
        workerStep t' (workerStep t s (Command.setTTL k v ttl)).1
            (Command.get k)
          = (updateStore (workerStep t s (Command.setTTL k v ttl)).1 k none,
             [notFoundMarker])) := by
  refine ⟨updateStore_self s k _, fun h1 h2 => ?_⟩
  have hle : t + ttl ≤ t' := by omega
  simp [workerStep, updateStore_self, hle]

/-- Claim C6 witness: a TTL of -2 set at clock 5 is expired for the GET
processed at clock 7. -/
theorem setWithTTL_nonpos_witness :
    ((-2 : Int) ≤ 0 ∧ (5 : Int) ≤ 7)
    ∧ (workerStep 5 emptyStore (Command.setTTL "k" "v" (-2))).1 "k"
        = some ⟨"v", true, 5 + (-2)⟩
    ∧ workerStep 7 (workerStep 5 emptyStore (Command.setTTL "k" "v" (-2))).1
        (Command.get "k")
        = (updateStore (workerStep 5 emptyStore
            (Command.setTTL "k" "v" (-2))).1 "k" none, [notFoundMarker]) :=
  ⟨⟨by decide, by decide⟩,
   (setWithTTL_nonpos_expires_immediately emptyStore "k" "v" (-2) 5 7).1,
   (setWithTTL_nonpos_expires_immediately emptyStore "k" "v" (-2) 5 7).2
     (by decide) (by decide)⟩

/-- Claim C8 evaluation: the enqueue path shared by set, setWithTTL, get
and del behaves identically whether or not the stop flag has been raised —
the command is appended to the queue unconditionally; there is no fail-fast
branch and no error outcome in the producer code. -/
theorem enqueue_ignores_stop (q : List Command) (c : Command) :
    enqueue true q c = enqueue false q c ∧ enqueue true q c = q ++ [c] :=
  ⟨rfl, rfl⟩

/-- Claim C10: on SET/GET/DEL queues the two dispatch bodies agree (same
GET fulfillments, value-equivalent final stores) — but the part_000 worker
loop as written never dequeues in the running state: however many passes it
makes over a queue holding SET "k" "v", starting from the empty store, the
queue still holds the command and key "k" was never written, for every
possible junk value of the undequeued local command (its key is the
default-constructed empty string). -/
theorem v0_variant_agreement_and_lost_pop :
    (∀ (q : List (Int × Command)) (s : Store) (s0 : StoreV0),
        (∀ tc ∈ q, (Prod.snd tc).isSetTTL = false) → ttlFree s →
        absMatch s s0 →
        (runQueueV0 s0 (q.map Prod.snd)).2 = (runQueue s q).2
        ∧ absMatch (runQueue s q).1 (runQueueV0 s0 (q.map Prod.snd)).1)
    ∧ (∀ (n : Nat) (junk : Command), junk.key = "" →
        (loopPassesV0 junk n emptyStoreV0 [Command.set "k" "v"]).2.1
            = [Command.set "k" "v"]
        ∧ (loopPassesV0 junk n emptyStoreV0 [Command.set "k" "v"]).1 "k"
            = none) := by
  refine ⟨fun q s s0 hq hf hm => runQueue_v0_agrees q s s0 hq hf hm, ?_⟩
  intro n junk hk
  refine ⟨loopPassesV0_queue junk n _ _, ?_⟩
  rw [loopPassesV0_store_frame junk n _ _ "k" (by rw [hk]; decide)]
  rfl

/-- Claim C10 witness: agreement of the two dispatches on a concrete
SET/GET queue from the empty stores, and three passes of the part_000 loop
(junk command SET "" "") leaving the enqueued SET "k" "v" unapplied. -/
theorem v0_variant_witness :
    ((∀ tc ∈ [((0 : Int), Command.set "a" "x"), (1, Command.get "a")],
        (Prod.snd tc).isSetTTL = false)
      ∧ (runQueueV0 emptyStoreV0
            ([((0 : Int), Command.set "a" "x"),
              (1, Command.get "a")].map Prod.snd)).2
          = (runQueue emptyStore
              [((0 : Int), Command.set "a" "x"), (1, Command.get "a")]).2)
    ∧ ((Command.set "" "").key = ""
      ∧ (loopPassesV0 (Command.set "" "") 3 emptyStoreV0
            [Command.set "k" "v"]).2.1 = [Command.set "k" "v"]
      ∧ (loopPassesV0 (Command.set "" "") 3 emptyStoreV0
            [Command.set "k" "v"]).1 "k" = none) :=
  ⟨⟨by decide,
    (v0_variant_agreement_and_lost_pop.1
      [((0 : Int), Command.set "a" "x"), (1, Command.get "a")]
      emptyStore emptyStoreV0 (by decide)
      (fun _ e h => Option.noConfusion h) (fun _ => rfl)).1⟩,
   rfl,
   (v0_variant_agreement_and_lost_pop.2 3 (Command.set "" "") rfl).1,
   (v0_variant_agreement_and_lost_pop.2 3 (Command.set "" "") rfl).2⟩

end RedisLite
